import Mathlib

/-!
Verification of the telegram-video-bot repository's lifecycle core: the
persistent job store (src/database.py), the generation client
(src/seedance.py), photo intake (src/handlers/photo_handler.py) and prompt
intake (src/handlers/prompt_handler.py), as a shallow embedding in Lean.

The job store serializes photo-path lists with Python's json.dumps and reads
them back with json.loads, so the embedding includes an executable model of
JSON serialization for lists of strings: dumps with the default
ensure_ascii=True escaping (two-character escapes, \u escapes and surrogate
pairs) and a recursive-descent loads for the produced fragment of JSON.
Lone-surrogate escape sequences, which dumps of a scalar-valued string never
produces, are rejected by the modelled loads.
-/

namespace TVB

def hexDigitChar (n : Nat) : Char :=
  if n < 10 then Char.ofNat (48 + n) else Char.ofNat (87 + n)

def hex4 (n : Nat) : List Char :=
  [hexDigitChar (n / 4096 % 16), hexDigitChar (n / 256 % 16),
   hexDigitChar (n / 16 % 16), hexDigitChar (n % 16)]

def escapeChar (c : Char) : List Char :=
  if c = '"' then ['\\', '"']
  else if c = '\\' then ['\\', '\\']
  else if c = '\n' then ['\\', 'n']
  else if c = '\r' then ['\\', 'r']
  else if c = '\t' then ['\\', 't']
  else if c.toNat = 8 then ['\\', 'b']
  else if c.toNat = 12 then ['\\', 'f']
  else if c.toNat < 32 then '\\' :: 'u' :: hex4 c.toNat
  else if c.toNat < 127 then [c]
  else if c.toNat < 65536 then '\\' :: 'u' :: hex4 c.toNat
  else
    ('\\' :: 'u' :: hex4 (55296 + (c.toNat - 65536) / 1024)) ++
    ('\\' :: 'u' :: hex4 (56320 + (c.toNat - 65536) % 1024))

def hexVal (c : Char) : Option Nat :=
  if '0' ≤ c ∧ c ≤ '9' then some (c.toNat - 48)
  else if 'a' ≤ c ∧ c ≤ 'f' then some (c.toNat - 87)
  else if 'A' ≤ c ∧ c ≤ 'F' then some (c.toNat - 55)
  else none

def consFst (c : Char) (p : List Char × List Char) : List Char × List Char :=
  (c :: p.1, p.2)

def parseHex4 : List Char → Option (Nat × List Char)
  | a :: b :: c :: d :: rest =>
    match hexVal a, hexVal b, hexVal c, hexVal d with
    | some va, some vb, some vc, some vd =>
      some (((va * 16 + vb) * 16 + vc) * 16 + vd, rest)
    | _, _, _, _ => none
  | _ => none

def parseLowSurrogate (recur : List Char → Option (List Char × List Char))
    (h lo : Nat) (rest4 : List Char) : Option (List Char × List Char) :=
  if 56320 ≤ lo ∧ lo < 57344 then
    Option.map (consFst (Char.ofNat (65536 + (h - 55296) * 1024 + (lo - 56320)))) (recur rest4)
  else none

def parseHighRest (recur : List Char → Option (List Char × List Char))
    (h : Nat) : List Char → Option (List Char × List Char)
  | s1 :: u1 :: rest3b =>
    if s1 = '\\' ∧ u1 = 'u' then
      (parseHex4 rest3b).bind (fun q => parseLowSurrogate recur h q.1 q.2)
    else none
  | [] => none
  | [_] => none

def parseAfterHex (recur : List Char → Option (List Char × List Char))
    (h : Nat) (rest3 : List Char) : Option (List Char × List Char) :=
  if h < 55296 ∨ 57344 ≤ h then Option.map (consFst (Char.ofNat h)) (recur rest3)
  else if h < 56320 then parseHighRest recur h rest3
  else none

def parseUnicodeEscape (recur : List Char → Option (List Char × List Char))
    (l : List Char) : Option (List Char × List Char) :=
  (parseHex4 l).bind (fun p => parseAfterHex recur p.1 p.2)

def parseEscape (recur : List Char → Option (List Char × List Char))
    (e : Char) (rest2 : List Char) : Option (List Char × List Char) :=
  if e = '"' then Option.map (consFst '"') (recur rest2)
  else if e = '\\' then Option.map (consFst '\\') (recur rest2)
  else if e = '/' then Option.map (consFst '/') (recur rest2)
  else if e = 'n' then Option.map (consFst '\n') (recur rest2)
  else if e = 'r' then Option.map (consFst '\r') (recur rest2)
  else if e = 't' then Option.map (consFst '\t') (recur rest2)
  else if e = 'b' then Option.map (consFst (Char.ofNat 8)) (recur rest2)
  else if e = 'f' then Option.map (consFst (Char.ofNat 12)) (recur rest2)
  else if e = 'u' then parseUnicodeEscape recur rest2
  else none

def parseStrBody : Nat → List Char → Option (List Char × List Char)
  | 0, _ => none
  | _ + 1, [] => none
  | fuel + 1, c :: rest =>
    if c = '"' then some ([], rest)
    else if c = '\\' then
      match rest with
      | [] => none
      | e :: rest2 => parseEscape (parseStrBody fuel) e rest2
    else if c.toNat < 32 then none
    else Option.map (consFst c) (parseStrBody fuel rest)

def escapeList : List Char → List Char
  | [] => []
  | c :: cs => escapeChar c ++ escapeList cs

theorem hexVal_hexDigitChar : ∀ d : Nat, d < 16 → hexVal (hexDigitChar d) = some d := by
  decide

theorem char_scalar_range (c : Char) :
    c.toNat < 55296 ∨ (57343 < c.toNat ∧ c.toNat < 1114112) := c.valid

theorem parseHex4_hex4 (v : Nat) (hv : v < 65536) (rest : List Char) :
    parseHex4 (hex4 v ++ rest) = some (v, rest) := by
  have h1 : v / 4096 % 16 < 16 := Nat.mod_lt _ (by omega)
  have h2 : v / 256 % 16 < 16 := Nat.mod_lt _ (by omega)
  have h3 : v / 16 % 16 < 16 := Nat.mod_lt _ (by omega)
  have h4 : v % 16 < 16 := Nat.mod_lt _ (by omega)
  simp only [hex4, List.cons_append, List.nil_append, parseHex4,
    hexVal_hexDigitChar _ h1, hexVal_hexDigitChar _ h2,
    hexVal_hexDigitChar _ h3, hexVal_hexDigitChar _ h4]
  congr 2
  omega

theorem parseStrBody_plain (c : Char) (fuel : Nat) (rest : List Char)
    (h1 : ¬c = '"') (h2 : ¬c = '\\') (h8 : ¬c.toNat < 32) :
    parseStrBody (fuel + 1) (c :: rest) =
      Option.map (consFst c) (parseStrBody fuel rest) := by
  rw [parseStrBody.eq_def]
  simp only [if_neg h1, if_neg h2, if_neg h8]

theorem parseUnicodeEscape_bmp (recur : List Char → Option (List Char × List Char))
    (c : Char) (rest : List Char)
    (hv : c.toNat < 65536) (hs : c.toNat < 55296 ∨ 57344 ≤ c.toNat) :
    parseUnicodeEscape recur (hex4 c.toNat ++ rest) =
      Option.map (consFst c) (recur rest) := by
  rw [parseUnicodeEscape, parseHex4_hex4 c.toNat hv rest, Option.some_bind]
  show parseAfterHex recur c.toNat rest = _
  rw [parseAfterHex, if_pos hs, Char.ofNat_toNat]

theorem parseUnicodeEscape_surrogate (recur : List Char → Option (List Char × List Char))
    (c : Char) (rest : List Char)
    (h10 : ¬c.toNat < 65536) (hub : c.toNat < 1114112) :
    parseUnicodeEscape recur
      (hex4 (55296 + (c.toNat - 65536) / 1024) ++
        ('\\' :: 'u' :: (hex4 (56320 + (c.toNat - 65536) % 1024) ++ rest))) =
      Option.map (consFst c) (recur rest) := by
  rw [parseUnicodeEscape,
    parseHex4_hex4 (55296 + (c.toNat - 65536) / 1024) (by omega), Option.some_bind]
  show parseAfterHex recur (55296 + (c.toNat - 65536) / 1024)
    ('\\' :: 'u' :: (hex4 (56320 + (c.toNat - 65536) % 1024) ++ rest)) = _
  rw [parseAfterHex,
    if_neg (show ¬(55296 + (c.toNat - 65536) / 1024 < 55296 ∨
      57344 ≤ 55296 + (c.toNat - 65536) / 1024) by omega),
    if_pos (show 55296 + (c.toNat - 65536) / 1024 < 56320 by omega)]
  rw [parseHighRest, if_pos (show ('\\' : Char) = '\\' ∧ ('u' : Char) = 'u' from ⟨rfl, rfl⟩)]
  rw [parseHex4_hex4 (56320 + (c.toNat - 65536) % 1024) (by omega) rest, Option.some_bind]
  show parseLowSurrogate recur (55296 + (c.toNat - 65536) / 1024)
    (56320 + (c.toNat - 65536) % 1024) rest = _
  rw [parseLowSurrogate,
    if_pos (show 56320 ≤ 56320 + (c.toNat - 65536) % 1024 ∧
      56320 + (c.toNat - 65536) % 1024 < 57344 from ⟨by omega, by omega⟩)]
  have hval : 65536 + (55296 + (c.toNat - 65536) / 1024 - 55296) * 1024 +
      (56320 + (c.toNat - 65536) % 1024 - 56320) = c.toNat := by omega
  rw [hval, Char.ofNat_toNat]

theorem parseStrBody_u (fuel : Nat) (x : List Char) :
    parseStrBody (fuel + 1) ('\\' :: 'u' :: x) =
      parseUnicodeEscape (parseStrBody fuel) x := rfl

theorem escape_step (c : Char) (fuel : Nat) (rest : List Char) :
    parseStrBody (fuel + 1) (escapeChar c ++ rest) =
      Option.map (consFst c) (parseStrBody fuel rest) := by
  rcases char_scalar_range c with hlt | ⟨hgt, hub⟩
  · by_cases h1 : c = '"'
    · subst h1; rfl
    by_cases h2 : c = '\\'
    · subst h2; rfl
    by_cases h3 : c = '\n'
    · subst h3; rfl
    by_cases h4 : c = '\r'
    · subst h4; rfl
    by_cases h5 : c = '\t'
    · subst h5; rfl
    by_cases h6 : c.toNat = 8
    · have hc : c = Char.ofNat 8 := by rw [← h6, Char.ofNat_toNat]
      rw [hc]; rfl
    by_cases h7 : c.toNat = 12
    · have hc : c = Char.ofNat 12 := by rw [← h7, Char.ofNat_toNat]
      rw [hc]; rfl
    by_cases h8 : c.toNat < 32
    · rw [escapeChar, if_neg h1, if_neg h2, if_neg h3, if_neg h4, if_neg h5,
        if_neg h6, if_neg h7, if_pos h8]
      show parseStrBody (fuel + 1) ('\\' :: 'u' :: (hex4 c.toNat ++ rest)) = _
      rw [parseStrBody_u]
      exact parseUnicodeEscape_bmp _ c rest (by omega) (Or.inl (by omega))
    by_cases h9 : c.toNat < 127
    · rw [escapeChar, if_neg h1, if_neg h2, if_neg h3, if_neg h4, if_neg h5,
        if_neg h6, if_neg h7, if_neg h8, if_pos h9]
      show parseStrBody (fuel + 1) (c :: rest) = _
      exact parseStrBody_plain c fuel rest h1 h2 h8
    · rw [escapeChar, if_neg h1, if_neg h2, if_neg h3, if_neg h4, if_neg h5,
        if_neg h6, if_neg h7, if_neg h8, if_neg h9, if_pos (show c.toNat < 65536 by omega)]
      show parseStrBody (fuel + 1) ('\\' :: 'u' :: (hex4 c.toNat ++ rest)) = _
      rw [parseStrBody_u]
      exact parseUnicodeEscape_bmp _ c rest (by omega) (Or.inl (by omega))
  · have h1 : ¬c = '"' := by intro h; subst h; exact absurd hgt (by decide)
    have h2 : ¬c = '\\' := by intro h; subst h; exact absurd hgt (by decide)
    have h3 : ¬c = '\n' := by intro h; subst h; exact absurd hgt (by decide)
    have h4 : ¬c = '\r' := by intro h; subst h; exact absurd hgt (by decide)
    have h5 : ¬c = '\t' := by intro h; subst h; exact absurd hgt (by decide)
    have h6 : ¬c.toNat = 8 := by omega
    have h7 : ¬c.toNat = 12 := by omega
    have h8 : ¬c.toNat < 32 := by omega
    by_cases h10 : c.toNat < 65536
    · rw [escapeChar, if_neg h1, if_neg h2, if_neg h3, if_neg h4, if_neg h5,
        if_neg h6, if_neg h7, if_neg h8]
      by_cases h9 : c.toNat < 127
      · rw [if_pos h9]
        show parseStrBody (fuel + 1) (c :: rest) = _
        exact parseStrBody_plain c fuel rest h1 h2 h8
      · rw [if_neg h9, if_pos h10]
        show parseStrBody (fuel + 1) ('\\' :: 'u' :: (hex4 c.toNat ++ rest)) = _
        rw [parseStrBody_u]
        exact parseUnicodeEscape_bmp _ c rest h10 (Or.inr (by omega))
    · rw [escapeChar, if_neg h1, if_neg h2, if_neg h3, if_neg h4, if_neg h5,
        if_neg h6, if_neg h7, if_neg h8, if_neg (show ¬c.toNat < 127 by omega), if_neg h10]
      show parseStrBody (fuel + 1)
        ('\\' :: 'u' :: (hex4 (55296 + (c.toNat - 65536) / 1024) ++
          ('\\' :: 'u' :: (hex4 (56320 + (c.toNat - 65536) % 1024) ++ rest)))) = _
      rw [parseStrBody_u]
      exact parseUnicodeEscape_surrogate _ c rest h10 hub

theorem parseStrBody_escapeList (s : List Char) :
    ∀ (fuel : Nat) (rest : List Char), s.length ≤ fuel →
      parseStrBody (fuel + 1) (escapeList s ++ '"' :: rest) = some (s, rest) := by
  induction s with
  | nil =>
    intro fuel rest _
    rfl
  | cons c cs ih =>
    intro fuel rest h
    obtain ⟨f, rfl⟩ : ∃ f, fuel = f + 1 := ⟨fuel - 1, by simp at h; omega⟩
    show parseStrBody (f + 1 + 1) ((escapeChar c ++ escapeList cs) ++ '"' :: rest) = _
    rw [List.append_assoc, escape_step, ih f rest (by simp at h; omega)]
    rfl

/-- One encoded string: models the output of json.dumps for a single str
(opening quote, escaped characters, closing quote). -/
def encStr (s : List Char) : List Char :=
  '"' :: (escapeList s ++ ['"'])

/-- Comma-space separated encoded items, as produced by json.dumps for a
non-empty list (Python's default separator is ", "). -/
def encItems : List (List Char) → List Char
  | [] => []
  | [s] => encStr s
  | s :: rest => encStr s ++ ',' :: ' ' :: encItems rest

/-- json.dumps for a list of strings: "[" ++ items ++ "]". -/
def dumpsChars (l : List (List Char)) : List Char :=
  '[' :: (encItems l ++ [']'])

/-- JSON whitespace skipping, as accepted by json.loads. -/
def skipWs : List Char → List Char
  | [] => []
  | c :: cs =>
    if c = ' ' ∨ c = '\t' ∨ c = '\n' ∨ c = '\r' then skipWs cs else c :: cs

/-- Parse one JSON string literal (a leading quote then the body). -/
def parseStr : List Char → Option (List Char × List Char)
  | '"' :: rest => parseStrBody (rest.length + 1) rest
  | _ => none

/-- After one array item: either a comma and more items, or stop. -/
def parseItemsCont (recur : List Char → Option (List (List Char) × List Char))
    (s : List Char) : List Char → Option (List (List Char) × List Char)
  | [] => some ([s], [])
  | d :: rest2 =>
    if d = ',' then Option.map (fun p => (s :: p.1, p.2)) (recur rest2)
    else some ([s], d :: rest2)

/-- Parse one or more comma-separated JSON strings (fuel-bounded). -/
def parseItems : Nat → List Char → Option (List (List Char) × List Char)
  | 0, _ => none
  | fuel + 1, input =>
    (parseStr (skipWs input)).bind
      (fun p => parseItemsCont (parseItems fuel) p.1 (skipWs p.2))

/-- After the items of a JSON array: closing bracket then only whitespace. -/
def loadsFinish (items : List (List Char)) : List Char → Option (List (List Char))
  | [] => none
  | e :: rest4 =>
    if e = ']' then (if skipWs rest4 = [] then some items else none) else none

/-- The part of a JSON array after the opening bracket. -/
def loadsArr : List Char → Option (List (List Char))
  | [] => none
  | d :: rest2 =>
    if d = ']' then (if skipWs rest2 = [] then some [] else none)
    else
      (parseItems (d :: rest2).length (d :: rest2)).bind
        (fun p => loadsFinish p.1 p.2)

/-- A JSON document whose only value is an array of strings. -/
def loadsBody : List Char → Option (List (List Char))
  | [] => none
  | c :: rest => if c = '[' then loadsArr (skipWs rest) else none

/-- json.loads restricted to JSON arrays of strings. -/
def loadsChars (input : List Char) : Option (List (List Char)) :=
  loadsBody (skipWs input)

/-- Python json.dumps applied to a list of strings. -/
def json_dumps (l : List String) : String :=
  ⟨dumpsChars (l.map String.data)⟩

/-- Python json.loads applied to the serialized form of a list of strings. -/
def json_loads (s : String) : Option (List String) :=
  (loadsChars s.data).map (fun l => l.map (fun cs => String.mk cs))

theorem escapeChar_length_pos (c : Char) : 1 ≤ (escapeChar c).length := by
  rw [escapeChar]
  repeat' split
  all_goals simp [hex4]

theorem escapeList_length (s : List Char) : s.length ≤ (escapeList s).length := by
  induction s with
  | nil => simp [escapeList]
  | cons c cs ih =>
    have := escapeChar_length_pos c
    simp only [escapeList, List.length_append, List.length_cons]
    omega

theorem parseStr_encStr (s rest : List Char) :
    parseStr (encStr s ++ rest) = some (s, rest) := by
  show parseStr ('"' :: ((escapeList s ++ ['"']) ++ rest)) = some (s, rest)
  rw [List.append_assoc]
  show parseStrBody ((escapeList s ++ '"' :: rest).length + 1)
    (escapeList s ++ '"' :: rest) = some (s, rest)
  exact parseStrBody_escapeList s _ rest
    (by simp only [List.length_append, List.length_cons]
        have := escapeList_length s
        omega)

theorem parseItems_space (f : Nat) (x : List Char) :
    parseItems (f + 1) (' ' :: x) = parseItems (f + 1) x := rfl

theorem encStr_ne_nil (s : List Char) : encStr s ≠ [] := by
  simp [encStr]

theorem parseItems_encItems (l : List (List Char)) :
    ∀ fuel : Nat, l ≠ [] → l.length ≤ fuel →
      parseItems fuel (encItems l ++ [']']) = some (l, [']']) := by
  induction l with
  | nil => intro fuel h _; exact absurd rfl h
  | cons s l' ih =>
    intro fuel _ hlen
    obtain ⟨f, rfl⟩ : ∃ f, fuel = f + 1 := ⟨fuel - 1, by simp at hlen; omega⟩
    match l', ih with
    | [], _ =>
      show parseItems (f + 1) (encStr s ++ [']']) = _
      show (parseStr (skipWs (encStr s ++ [']']))).bind _ = _
      rw [show skipWs (encStr s ++ [']']) = encStr s ++ [']'] from rfl,
        parseStr_encStr s [']'], Option.some_bind]
      rfl
    | s' :: l'', ih =>
      show parseItems (f + 1) ((encStr s ++ ',' :: ' ' :: encItems (s' :: l'')) ++ [']']) = _
      rw [List.append_assoc]
      show (parseStr (skipWs (encStr s ++ (',' :: ' ' :: encItems (s' :: l'') ++ [']'])))).bind _ = _
      rw [show skipWs (encStr s ++ (',' :: ' ' :: encItems (s' :: l'') ++ [']'])) =
          encStr s ++ (',' :: ' ' :: encItems (s' :: l'') ++ [']']) from rfl,
        parseStr_encStr, Option.some_bind]
      show parseItemsCont (parseItems f) s
        (skipWs (',' :: ' ' :: encItems (s' :: l'') ++ [']'])) = _
      rw [show skipWs (',' :: ' ' :: encItems (s' :: l'') ++ [']']) =
          ',' :: ' ' :: encItems (s' :: l'') ++ [']'] from rfl]
      show Option.map (fun p => (s :: p.1, p.2))
        (parseItems f (' ' :: (encItems (s' :: l'') ++ [']']))) = _
      obtain ⟨f', rfl⟩ : ∃ f', f = f' + 1 := ⟨f - 1, by simp at hlen; omega⟩
      rw [parseItems_space, ih (f' + 1) (by simp) (by simp at hlen ⊢; omega)]
      rfl

theorem encItems_length (l : List (List Char)) : l.length ≤ (encItems l).length + 1 := by
  induction l with
  | nil => simp
  | cons s l' ih =>
    match l' with
    | [] => simp [encItems, encStr]
    | s' :: l'' =>
      show (s :: s' :: l'').length ≤ (encStr s ++ ',' :: ' ' :: encItems (s' :: l'')).length + 1
      simp only [List.length_cons, List.length_append, encStr, List.length_cons] at ih ⊢
      omega

theorem loadsChars_dumpsChars (l : List (List Char)) :
    loadsChars (dumpsChars l) = some l := by
  match l with
  | [] => rfl
  | s :: l' =>
    show loadsBody (skipWs ('[' :: (encItems (s :: l') ++ [']']))) = _
    rw [show skipWs ('[' :: (encItems (s :: l') ++ [']'])) =
        '[' :: (encItems (s :: l') ++ [']']) from rfl]
    rw [loadsBody, if_pos rfl]
    have hcons : ∃ rest2, encItems (s :: l') ++ [']'] = '"' :: rest2 := by
      match l' with
      | [] => exact ⟨_, rfl⟩
      | s' :: l'' => exact ⟨_, rfl⟩
    obtain ⟨rest2, heq⟩ := hcons
    rw [heq]
    rw [show skipWs ('"' :: rest2) = '"' :: rest2 from rfl]
    rw [loadsArr, if_neg (by decide)]
    have hlen : (s :: l').length ≤ ('"' :: rest2).length := by
      have h1 := encItems_length (s :: l')
      have h2 := congrArg List.length heq
      simp only [List.length_append, List.length_cons, List.length_nil] at h1 h2 ⊢
      omega
    rw [← heq] at hlen ⊢
    rw [parseItems_encItems (s :: l') _ (by simp) hlen, Option.some_bind]
    rfl

theorem json_loads_dumps (l : List String) : json_loads (json_dumps l) = some l := by
  show (loadsChars (dumpsChars (l.map String.data))).map _ = some l
  rw [loadsChars_dumpsChars]
  simp only [Option.map_some']
  congr 1
  rw [List.map_map]
  have hid : (fun cs => (String.mk cs : String)) ∘ String.data = id := rfl
  rw [hid, List.map_id]

/-! ## Persistent job store (src/database.py)

Rows are modelled as records; the two tables as functions from primary key
to an optional row.  `photos` and `prompt` are TEXT columns that every
writer in the code populates, so they are modelled as `String`
(`photos` holds the json.dumps serialization, exactly as in the code);
nullable columns that the code does leave NULL are `Option`.
SQLite CURRENT_TIMESTAMP stamps are modelled by an explicit `now : Nat`
argument on the operations that write them. -/

structure JobRow where
  user_id : Int
  chat_id : Int
  photos : String
  prompt : String
  status : String
  seedance_job_id : Option String
  video_path : Option String
  created_at : Nat
  completed_at : Option Nat
  error_message : Option String
deriving Repr, DecidableEq

structure SessionRow where
  state : String
  photos : String
  current_prompt : String
  last_job_id : Option Nat
  updated_at : Nat
deriving Repr, DecidableEq

structure DB where
  jobs : Nat → Option JobRow
  nextJobId : Nat
  sessions : Int → Option SessionRow

/-- Database.create_job: INSERT a pending job, then INSERT OR REPLACE the
session to state generating with the same photos, the prompt and the new
job id.  Returns the new job id and the updated store. -/
def create_job (db : DB) (now : Nat) (user_id chat_id : Int)
    (photos : List String) (prompt : String) : Nat × DB :=
  let job_id := db.nextJobId
  let row : JobRow :=
    { user_id := user_id, chat_id := chat_id, photos := json_dumps photos,
      prompt := prompt, status := "pending", seedance_job_id := none,
      video_path := none, created_at := now, completed_at := none,
      error_message := none }
  let sess : SessionRow :=
    { state := "generating", photos := json_dumps photos,
      current_prompt := prompt, last_job_id := some job_id, updated_at := now }
  (job_id,
    { jobs := fun i => if i = job_id then some row else db.jobs i,
      nextJobId := job_id + 1,
      sessions := fun u => if u = user_id then some sess else db.sessions u })

/-- Database.get_job: point lookup. -/
def get_job (db : DB) (job_id : Nat) : Option JobRow :=
  db.jobs job_id

/-- Database.update_job_status: when the new status is "completed" it
overwrites seedance_job_id, video_path, error_message and stamps
completed_at; otherwise it overwrites status, seedance_job_id and
error_message only.  The optional Python keyword arguments default to
None, modelled as `none` here.  The UPDATE touches only the row with the
given id, and is a no-op when that row is absent. -/
def update_job_status (db : DB) (now : Nat) (job_id : Nat) (status : String)
    (seedance_job_id : Option String) (video_path : Option String)
    (error_message : Option String) : DB :=
  { db with
    jobs := fun i =>
      if i = job_id then
        (db.jobs i).map (fun row =>
          if status = "completed" then
            { row with
              status := status
              seedance_job_id := seedance_job_id
              video_path := video_path
              completed_at := some now
              error_message := error_message }
          else
            { row with
              status := status
              seedance_job_id := seedance_job_id
              error_message := error_message })
      else db.jobs i }

/-- Database.get_user_session: point lookup. -/
def get_user_session (db : DB) (user_id : Int) : Option SessionRow :=
  db.sessions user_id

/-- Database.update_user_state: partial update of an existing session
(absent keyword arguments leave columns untouched), or insertion of a new
row with defaults for the absent arguments.  The Python callers never pass
None for a present keyword argument, so presence is modelled by `Option`. -/
def update_user_state (db : DB) (now : Nat) (user_id : Int) (state : String)
    (photos : Option (List String)) (current_prompt : Option String)
    (last_job_id : Option Nat) : DB :=
  { db with
    sessions := fun u =>
      if u = user_id then
        match db.sessions u with
        | some s =>
          some { s with
            state := state,
            updated_at := now,
            photos := match photos with
              | some ps => json_dumps ps
              | none => s.photos,
            current_prompt := match current_prompt with
              | some p => p
              | none => s.current_prompt,
            last_job_id := match last_job_id with
              | some j => some j
              | none => s.last_job_id }
        | none =>
          some { state := state,
                 photos := json_dumps (photos.getD []),
                 current_prompt := current_prompt.getD "",
                 last_job_id := last_job_id,
                 updated_at := now }
      else db.sessions u }

/-- Database.clear_user_session: DELETE the session row. -/
def clear_user_session (db : DB) (user_id : Int) : DB :=
  { db with
    sessions := fun u => if u = user_id then none else db.sessions u }

/-- Database.reset_user_generation_state: set state idle, photos to the
literal text "[]", current_prompt to "", stamp updated_at; the UPDATE
names neither last_job_id nor any jobs column. -/
def reset_user_generation_state (db : DB) (now : Nat) (user_id : Int) : DB :=
  { db with
    sessions := fun u =>
      if u = user_id then
        (db.sessions u).map (fun s =>
          { s with
            state := "idle"
            photos := "[]"
            current_prompt := ""
            updated_at := now })
      else db.sessions u }

/-! ## Prompt validation (src/handlers/prompt_handler.py) -/

/-- PromptHandler.min_prompt_length. -/
def min_prompt_length : Nat := 10

/-- PromptHandler.max_prompt_length. -/
def max_prompt_length : Nat := 500

def promptEmptyMsg : String :=
  "Please enter a prompt describing your video."

def promptTooShortMsg (n : Nat) : String :=
  "Prompt is too short (" ++ toString n ++
    " chars). Please describe your video in at least " ++
    toString min_prompt_length ++ " characters."

def promptTooLongMsg (n : Nat) : String :=
  "Prompt is too long (" ++ toString n ++ " chars). Please keep it under " ++
    toString max_prompt_length ++ " characters."

def promptGenericMsg : String :=
  "Please provide a more detailed prompt."

/-- Python Py_UNICODE_ISSPACE: the code points stripped by str.strip(). -/
def pyIsSpace (c : Char) : Bool :=
  decide ((9 ≤ c.toNat ∧ c.toNat ≤ 13) ∨ (28 ≤ c.toNat ∧ c.toNat ≤ 31) ∨
    c.toNat = 32 ∨ c.toNat = 133 ∨ c.toNat = 160 ∨ c.toNat = 5760 ∨
    (8192 ≤ c.toNat ∧ c.toNat ≤ 8202) ∨ c.toNat = 8232 ∨ c.toNat = 8233 ∨
    c.toNat = 8239 ∨ c.toNat = 8287 ∨ c.toNat = 12288)

/-- Python str.strip(): drop whitespace from both ends. -/
def py_strip (s : String) : String :=
  ⟨((s.data.dropWhile pyIsSpace).reverse.dropWhile pyIsSpace).reverse⟩

/-- The stoplist checked by PromptHandler._validate_prompt. -/
def stoplist : List String := ["a", "i", "me", "test"]

/-- PromptHandler._validate_prompt: returns the rejection message of the
first failing check, or none when the prompt is accepted. -/
def validate_prompt (prompt : String) : Option String :=
  if prompt = "" then some promptEmptyMsg
  else if prompt.length < min_prompt_length then
    some (promptTooShortMsg prompt.length)
  else if prompt.length > max_prompt_length then
    some (promptTooLongMsg prompt.length)
  else if py_strip prompt ∈ stoplist then some promptGenericMsg
  else none

/-! ## Photo intake (src/handlers/photo_handler.py)

`handle_photos` is modelled per incoming message: `savedPhoto` is the path
returned by `_save_photo` (none when saving failed).  The reply sent to the
user is abstracted into `PhotoOutcome`.  A malformed stored photos column
would make json.loads raise, modelled by the outer `none`. -/

inductive PhotoOutcome where
  /-- "You already have N photos. Please send your prompt first, or use
  /reset to start over." — returned before any store write. -/
  | rejectedFull (count : Nat)
  /-- "Could not process the image." — returned before any store write. -/
  | couldNotProcess
  /-- "Photo saved! (count/max) ... send more or send your prompt". -/
  | savedMore (count remaining : Nat)
  /-- "All photos received! Now send me a prompt ..." -/
  | savedReady
deriving Repr, DecidableEq

def handlePhotosWith (db : DB) (now : Nat) (maxPhotos : Nat) (user_id : Int)
    (savedPhoto : Option String) (current : List String) :
    PhotoOutcome × DB :=
  if maxPhotos ≤ current.length then (.rejectedFull current.length, db)
  else
    match savedPhoto with
    | none => (.couldNotProcess, db)
    | some p =>
      let all := current ++ [p]
      let db2 := update_user_state db now user_id "awaiting_prompt" (some all) none none
      let remaining := maxPhotos - all.length
      if 0 < remaining then (.savedMore all.length remaining, db2)
      else (.savedReady, db2)

/-- PhotoHandler.handle_photos. -/
def handle_photos (db : DB) (now : Nat) (maxPhotos : Nat) (user_id : Int)
    (savedPhoto : Option String) : Option (PhotoOutcome × DB) :=
  match get_user_session db user_id with
  | some s =>
    match json_loads s.photos with
    | none => none
    | some current => some (handlePhotosWith db now maxPhotos user_id savedPhoto current)
  | none => some (handlePhotosWith db now maxPhotos user_id savedPhoto [])

/-! ## Generation client (src/seedance.py)

The aiohttp calls are modelled by explicit environments: the submission
response, the sequence of poll responses and the download response for a
URL.  A JobStatus(...) call on an unrecognized string raises ValueError,
and session.get(None) raises on a missing video_url; both are modelled as
`Except.error`.  File writes are modelled by returning the written
(path, content) pair where one happens. -/

inductive JobStatus where
  | pending
  | processing
  | completed
  | failed
deriving Repr, DecidableEq

/-- The JobStatus(...) enum constructor: none models a ValueError. -/
def jobStatusOfString (s : String) : Option JobStatus :=
  if s = "pending" then some .pending
  else if s = "processing" then some .processing
  else if s = "completed" then some .completed
  else if s = "failed" then some .failed
  else none

structure VideoGenerationRequest where
  prompt : String
  images : List String
  resolution : String
  duration : Option Nat
  seed : Option Int
deriving Repr, DecidableEq

structure VideoGenerationResponse where
  job_id : String
  status : JobStatus
  video_url : Option String
  error_message : Option String
  progress : Option Nat
deriving Repr, DecidableEq

/-- The placeholder text _mock_generate writes (the prompt appears after
"Prompt: "). -/
def mockFileContent (job_id : String) (req : VideoGenerationRequest) : String :=
  "MOCK VIDEO PLACEHOLDER\n====================\nJob ID: " ++ job_id ++
    "\nPrompt: " ++ req.prompt ++ "\nImages: " ++ toString req.images.length ++
    "\nStatus: ready (mock mode)\n\nTo enable real video generation:\n" ++
    "1. Set MOCK_MODE=false in .env\n2. Add your Seedance API key\n" ++
    "3. Wait until Feb 24 for API access\n\n" ++
    "This placeholder represents where the generated video would be stored.\n"

/-- SeedanceClient._mock_generate: fabricates a job id from a uuid hex
fragment, writes the placeholder file and returns completed with its path.
The second component is the (path, content) file write. -/
def mock_generate (storagePath : String) (uuidHex : String)
    (req : VideoGenerationRequest) : VideoGenerationResponse × (String × String) :=
  let job_id := "mock_" ++ uuidHex
  let path := storagePath ++ "/" ++ job_id ++ ".mock"
  ({ job_id := job_id
     status := .completed
     video_url := some path
     error_message := none
     progress := some 100 },
   (path, mockFileContent job_id req))

structure SubmitResp where
  httpStatus : Nat
  errorText : String
  jobId : String
deriving Repr, DecidableEq

structure StatusPayload where
  status : Option String
  progress : Nat
  video_url : Option String
  error : Option String
deriving Repr, DecidableEq

inductive PollResp where
  | httpErr (code : Nat)
  | ok (payload : StatusPayload)
deriving Repr, DecidableEq

structure DownloadResp where
  httpStatus : Nat
  content : String
deriving Repr, DecidableEq

inductive PyErr where
  /-- ValueError from JobStatus(...) on an unrecognized status string. -/
  | valueError (badStatus : String)
  /-- aiohttp error from session.get(None) when video_url is absent. -/
  | invalidUrl
deriving Repr, DecidableEq

/-- max_attempts in _real_generate. -/
def max_attempts : Nat := 60

/-- Count one performed status request on a loop continuation result. -/
def bumpPoll (p : (Except PyErr VideoGenerationResponse) × Nat) :
    (Except PyErr VideoGenerationResponse) × Nat :=
  (p.1, p.2 + 1)

/-- COMPLETED branch: download the artifact; non-200 yields a Result that
keeps the completed status with a download error message. -/
def pollCompleted (storagePath jobId : String)
    (download : String → DownloadResp) (payload : StatusPayload) :
    Option String → (Except PyErr VideoGenerationResponse) × Nat
  | none => (Except.error PyErr.invalidUrl, 1)
  | some url =>
    if (download url).httpStatus = 200 then
      (Except.ok
        { job_id := jobId
          status := JobStatus.completed
          video_url := some (storagePath ++ "/" ++ jobId ++ ".mp4")
          error_message := none
          progress := some payload.progress }, 1)
    else
      (Except.ok
        { job_id := jobId
          status := JobStatus.completed
          video_url := none
          error_message := some "Failed to download video"
          progress := none }, 1)

/-- Dispatch on the decoded job status. -/
def pollOnStatus (storagePath jobId : String)
    (download : String → DownloadResp)
    (next : Unit → (Except PyErr VideoGenerationResponse) × Nat)
    (payload : StatusPayload) (st : JobStatus) :
    (Except PyErr VideoGenerationResponse) × Nat :=
  if st = JobStatus.completed then
    pollCompleted storagePath jobId download payload payload.video_url
  else if st = JobStatus.failed then
    (Except.ok
      { job_id := jobId
        status := st
        video_url := none
        error_message := some (payload.error.getD "Unknown error")
        progress := none }, 1)
  else bumpPoll (next ())

/-- Decode the status string; an unrecognized one is the raised ValueError. -/
def pollWithStatus (storagePath jobId : String)
    (download : String → DownloadResp)
    (next : Unit → (Except PyErr VideoGenerationResponse) × Nat)
    (payload : StatusPayload) :
    Option JobStatus → (Except PyErr VideoGenerationResponse) × Nat
  | none => (Except.error (PyErr.valueError (payload.status.getD "pending")), 1)
  | some st => pollOnStatus storagePath jobId download next payload st

/-- One loop iteration given the poll response. -/
def pollStep (storagePath jobId : String)
    (download : String → DownloadResp)
    (next : Unit → (Except PyErr VideoGenerationResponse) × Nat) :
    PollResp → (Except PyErr VideoGenerationResponse) × Nat
  | .httpErr _ => bumpPoll (next ())
  | .ok payload =>
    pollWithStatus storagePath jobId download next payload
      (jobStatusOfString (payload.status.getD "pending"))

/-- The polling loop of _real_generate.  First Nat argument is the current
attempt index, second the remaining attempts; the result carries the
number of status requests performed. -/
def pollLoop (storagePath jobId : String) (polls : Nat → PollResp)
    (download : String → DownloadResp) :
    Nat → Nat → (Except PyErr VideoGenerationResponse) × Nat
  | _, 0 =>
    (Except.ok
      { job_id := jobId
        status := .failed
        video_url := none
        error_message := some "Timeout waiting for generation"
        progress := none }, 0)
  | attempt, fuel + 1 =>
    pollStep storagePath jobId download
      (fun _ => pollLoop storagePath jobId polls download (attempt + 1) fuel)
      (polls attempt)

/-- SeedanceClient._real_generate: submit, then poll up to max_attempts. -/
def real_generate (storagePath : String) (submit : SubmitResp)
    (polls : Nat → PollResp) (download : String → DownloadResp) :
    (Except PyErr VideoGenerationResponse) × Nat :=
  if submit.httpStatus ≠ 200 then
    (Except.ok
      { job_id := ""
        status := .failed
        video_url := none
        error_message := some ("API error: " ++ submit.errorText)
        progress := none }, 0)
  else
    pollLoop storagePath submit.jobId polls download 0 max_attempts

/-! ## Prompt intake store updates (src/handlers/prompt_handler.py)

The store mutations _start_generation performs around the client call,
given the client's response.  The method's parameters are (update, context,
job_id, photos, prompt): the name `user_id` is NOT bound inside it, so the
failed branch's clear_user_session(user_id) raises NameError after the
job has been updated with the backend's message; the except handler then
re-updates the job with the NameError text str(e) as error_message and
deletes the session using update.effective_user.id.  The completed branch
only uses update.effective_user.id and raises nothing (\_send_video
catches its own exceptions). -/

/-- str(e) for the NameError raised by the failed branch's
clear_user_session(user_id) call. -/
def nameErrorMsg : String := "name 'user_id' is not defined"

def start_generation_update (db : DB) (now : Nat) (effective_user_id : Int)
    (job_id : Nat) (response : VideoGenerationResponse) : DB :=
  let db1 := update_job_status db now job_id "generating" none none none
  if response.status = JobStatus.completed then
    let db2 := update_job_status db1 now job_id "completed"
      (some response.job_id) response.video_url none
    reset_user_generation_state db2 now effective_user_id
  else
    let db2 := update_job_status db1 now job_id "failed" none none
      response.error_message
    let db3 := update_job_status db2 now job_id "failed" none none
      (some nameErrorMsg)
    clear_user_session db3 effective_user_id

/-! ## Claim C1 -/

/-- C1 counterexample: the literal string "test" is rejected by
_validate_prompt as too short (the length check precedes the stoplist
check), not as "too generic". -/
theorem c1_validate_prompt_test_not_generic :
    validate_prompt "test" = some (promptTooShortMsg 4) ∧
      promptTooShortMsg 4 ≠ promptGenericMsg ∧
      validate_prompt "test" ≠ some promptGenericMsg := by
  refine ⟨rfl, by decide, by decide⟩

/-- C1 (amended): _validate_prompt applies its checks in order with the
first failure winning — empty, then length < 10, then length > 500, then
trimmed text in the stoplist \x7ba, i, me, test\x7d, else accepted — so each
of the literal strings "a", "i", "me", "test" is rejected as too short
(length < 10), not as generic; the generic rejection fires only for
prompts of length 10..500 whose trimmed text is in the stoplist. -/
theorem c1_validate_prompt_spec :
    (validate_prompt "" = some promptEmptyMsg)
    ∧ (∀ p : String, p ≠ "" → p.length < 10 →
        validate_prompt p = some (promptTooShortMsg p.length))
    ∧ (∀ p : String, 500 < p.length →
        validate_prompt p = some (promptTooLongMsg p.length))
    ∧ (∀ p : String, 10 ≤ p.length → p.length ≤ 500 → py_strip p ∈ stoplist →
        validate_prompt p = some promptGenericMsg)
    ∧ (∀ p : String, 10 ≤ p.length → p.length ≤ 500 → py_strip p ∉ stoplist →
        validate_prompt p = none)
    ∧ (validate_prompt "a" = some (promptTooShortMsg 1)
        ∧ validate_prompt "i" = some (promptTooShortMsg 1)
        ∧ validate_prompt "me" = some (promptTooShortMsg 2)
        ∧ validate_prompt "test" = some (promptTooShortMsg 4)) := by
  refine ⟨rfl, ?_, ?_, ?_, ?_, rfl, rfl, rfl, rfl⟩
  · intro p hne hlt
    simp only [validate_prompt, min_prompt_length]
    rw [if_neg hne, if_pos hlt]
  · intro p hgt
    have hne : p ≠ "" := by
      intro h
      rw [h] at hgt
      exact absurd hgt (by decide)
    simp only [validate_prompt, min_prompt_length, max_prompt_length]
    rw [if_neg hne, if_neg (show ¬p.length < 10 by omega), if_pos hgt]
  · intro p hge hle hmem
    have hne : p ≠ "" := by
      intro h
      rw [h] at hge
      exact absurd hge (by decide)
    simp only [validate_prompt, min_prompt_length, max_prompt_length]
    rw [if_neg hne, if_neg (show ¬p.length < 10 by omega),
      if_neg (show ¬p.length > 500 by omega), if_pos hmem]
  · intro p hge hle hmem
    have hne : p ≠ "" := by
      intro h
      rw [h] at hge
      exact absurd hge (by decide)
    simp only [validate_prompt, min_prompt_length, max_prompt_length]
    rw [if_neg hne, if_neg (show ¬p.length < 10 by omega),
      if_neg (show ¬p.length > 500 by omega), if_neg hmem]

/-- C1 witness: the amended characterization applied at concrete prompts —
a 5-character prompt is rejected as too short, a 501-character prompt as
too long, a 10-character whitespace-padded "test" as generic, and a
13-character ordinary prompt is accepted. -/
theorem c1_validate_prompt_spec_witness :
    validate_prompt "short" = some (promptTooShortMsg 5)
    ∧ validate_prompt (String.mk (List.replicate 501 'x')) =
        some (promptTooLongMsg 501)
    ∧ validate_prompt "   test   " = some promptGenericMsg
    ∧ validate_prompt "a cat dancing" = none := by
  refine ⟨?_, ?_, ?_, ?_⟩
  · exact c1_validate_prompt_spec.2.1 "short" (by decide) (by decide)
  · have h := c1_validate_prompt_spec.2.2.1 (String.mk (List.replicate 501 'x'))
      (by show (500 : Nat) < (List.replicate 501 'x').length
          rw [List.length_replicate]
          decide)
    rw [show (String.mk (List.replicate 501 'x')).length = 501 by
      show (List.replicate 501 'x').length = 501
      rw [List.length_replicate]] at h
    exact h
  · exact c1_validate_prompt_spec.2.2.2.1 "   test   " (by decide) (by decide) (by decide)
  · exact c1_validate_prompt_spec.2.2.2.2.1 "a cat dancing" (by decide) (by decide) (by decide)

/-! ## Claim C2 -/

def jobRowEx : JobRow :=
  { user_id := 1
    chat_id := 2
    photos := json_dumps ["photos/1_0.jpg"]
    prompt := "a cat dancing in the rain"
    status := "completed"
    seedance_job_id := some "sd_31"
    video_path := some "videos/sd_31.mp4"
    created_at := 0
    completed_at := some 5
    error_message := none }

def dbTermEx : DB :=
  { jobs := fun i => if i = 1 then some jobRowEx else none
    nextJobId := 2
    sessions := fun _ => none }

/-- C2 counterexample: a job in the terminal state "completed" is moved
back to "pending" by update_job_status — the store does not guard terminal
states. -/
theorem c2_terminal_not_sticky :
    (get_job dbTermEx 1).map JobRow.status = some "completed"
    ∧ (get_job (update_job_status dbTermEx 9 1 "pending" none none none) 1).map
        JobRow.status = some "pending" := by
  exact ⟨rfl, rfl⟩

/-- C2 (amended): update_job_status never changes a job's photos or prompt,
but it applies the requested status unconditionally — there is no terminal-
state guard, so a job whose status is "completed" or "failed" can be moved
to any other status by a later call. -/
theorem c2_update_job_status_frame :
    (∀ (db : DB) (now : Nat) (id : Nat) (st : String)
        (sj vp em : Option String) (j : Nat),
      ((update_job_status db now id st sj vp em).jobs j).map
          (fun r => (r.photos, r.prompt)) =
        (db.jobs j).map (fun r => (r.photos, r.prompt)))
    ∧ (∃ db : DB,
        (get_job db 1).map JobRow.status = some "completed"
        ∧ (get_job (update_job_status db 9 1 "pending" none none none) 1).map
            JobRow.status = some "pending") := by
  constructor
  · intro db now id st sj vp em j
    simp only [update_job_status]
    by_cases hj : j = id
    · rw [if_pos hj]
      cases db.jobs j with
      | none => rfl
      | some row =>
        by_cases hst : st = "completed"
        · simp [hst]
        · simp [hst]
    · rw [if_neg hj]
  · exact ⟨dbTermEx, rfl, rfl⟩

/-! ## Claim C3 -/

/-- C3: create_job followed by get_job on the returned id yields a row
whose photos deserialize exactly to the input list and whose prompt equals
the input prompt (json.dumps/json.loads round-trip is lossless). -/
theorem c3_create_job_get_job_roundtrip (db : DB) (now : Nat) (u c : Int)
    (photos : List String) (prompt : String) (hne : photos ≠ []) :
    ∃ row : JobRow,
      get_job (create_job db now u c photos prompt).2
        (create_job db now u c photos prompt).1 = some row
      ∧ json_loads row.photos = some photos
      ∧ row.prompt = prompt := by
  refine ⟨{ user_id := u
            chat_id := c
            photos := json_dumps photos
            prompt := prompt
            status := "pending"
            seedance_job_id := none
            video_path := none
            created_at := now
            completed_at := none
            error_message := none }, ?_, json_loads_dumps photos, rfl⟩
  simp [get_job, create_job]

def dbEmpty : DB :=
  { jobs := fun _ => none
    nextJobId := 1
    sessions := fun _ => none }

/-- C3 witness: the round-trip at a concrete store, photo list and prompt. -/
theorem c3_create_job_get_job_roundtrip_witness :
    ∃ row : JobRow,
      get_job (create_job dbEmpty 0 1 2 ["photos/1_0.jpg", "photos/1_1.jpg"]
          "a cat dancing in the rain").2
        (create_job dbEmpty 0 1 2 ["photos/1_0.jpg", "photos/1_1.jpg"]
          "a cat dancing in the rain").1 = some row
      ∧ json_loads row.photos = some ["photos/1_0.jpg", "photos/1_1.jpg"]
      ∧ row.prompt = "a cat dancing in the rain" :=
  c3_create_job_get_job_roundtrip dbEmpty 0 1 2 _ _ (by decide)

/-! ## Claim C9 -/

/-- C9: for an existing session row, reset_user_generation_state sets
state to idle and clears photos (to the serialized empty list "[]") and
current_prompt, while leaving last_job_id unchanged. -/
theorem c9_reset_user_generation_state_spec (db : DB) (now : Nat) (u : Int)
    (s : SessionRow) (hs : get_user_session db u = some s) :
    get_user_session (reset_user_generation_state db now u) u =
      some { state := "idle"
             photos := "[]"
             current_prompt := ""
             last_job_id := s.last_job_id
             updated_at := now }
    ∧ json_loads "[]" = some [] := by
  constructor
  · simp only [get_user_session] at hs
    simp [get_user_session, reset_user_generation_state, hs]
  · rfl

def sessEx : SessionRow :=
  { state := "generating"
    photos := json_dumps ["photos/1_0.jpg"]
    current_prompt := "sunset over the sea"
    last_job_id := some 7
    updated_at := 3 }

def dbSessEx : DB :=
  { jobs := fun _ => none
    nextJobId := 8
    sessions := fun u => if u = 1 then some sessEx else none }

/-- C9 witness: the reset applied to a concrete session with a stored
last_job_id of 7. -/
theorem c9_reset_user_generation_state_witness :
    get_user_session (reset_user_generation_state dbSessEx 4 1) 1 =
      some { state := "idle"
             photos := "[]"
             current_prompt := ""
             last_job_id := some 7
             updated_at := 4 }
    ∧ json_loads "[]" = some [] :=
  c9_reset_user_generation_state_spec dbSessEx 4 1 sessEx rfl

/-! ## Claim C10 -/

/-- C10: updating an existing job to a non-completed status with the
optional arguments omitted (None) overwrites seedance_job_id and
error_message with NULL, while leaving video_path and completed_at (and
photos, prompt, user_id, chat_id, created_at) unchanged. -/
theorem c10_update_job_status_nonterminal_frame (db : DB) (now : Nat)
    (id : Nat) (st : String) (row : JobRow)
    (hrow : get_job db id = some row) (hst : st ≠ "completed") :
    get_job (update_job_status db now id st none none none) id =
      some { row with
             status := st
             seedance_job_id := none
             error_message := none } := by
  simp only [get_job] at hrow
  simp [get_job, update_job_status, hrow, hst]

/-- C10 witness: the frame condition at a concrete completed row holding a
provider job id, a video path and a completed_at stamp: the non-completed
update nulls seedance_job_id and error_message but keeps video_path and
completed_at. -/
theorem c10_update_job_status_nonterminal_frame_witness :
    get_job (update_job_status dbTermEx 9 1 "failed" none none none) 1 =
      some { jobRowEx with
             status := "failed"
             seedance_job_id := none
             error_message := none } :=
  c10_update_job_status_nonterminal_frame dbTermEx 9 1 "failed" jobRowEx rfl
    (by decide)

/-! ## Claim C8 -/

/-- C8 (code bug): on a failed Result the flow first writes the backend
error message, but clear_user_session(user_id) then raises NameError —
user_id is undefined in _start_generation — and the except handler
overwrites the job error_message with the NameError text before deleting
the session.  The job therefore ends failed with the NameError text, not
the backend message (whenever the two differ), and the session row is
deleted. -/
theorem c8_start_generation_failed_name_error (db : DB) (now : Nat) (u : Int)
    (j : Nat) (resp : VideoGenerationResponse) (row : JobRow)
    (hrow : get_job db j = some row)
    (hfail : resp.status = JobStatus.failed) :
    (get_job (start_generation_update db now u j resp) j).map
        (fun r => (r.status, r.error_message)) = some ("failed", some nameErrorMsg)
    ∧ get_user_session (start_generation_update db now u j resp) u = none
    ∧ (resp.error_message ≠ some nameErrorMsg →
        (get_job (start_generation_update db now u j resp) j).map
            (fun r => r.error_message) ≠ some resp.error_message) := by
  have hne : ¬resp.status = JobStatus.completed := by
    rw [hfail]
    decide
  have hjob : (get_job (start_generation_update db now u j resp) j).map
      (fun r => (r.status, r.error_message)) = some ("failed", some nameErrorMsg) := by
    simp only [start_generation_update, if_neg hne]
    simp only [get_job] at hrow
    simp [get_job, clear_user_session, update_job_status, hrow]
  refine ⟨hjob, ?_, ?_⟩
  · simp only [start_generation_update, if_neg hne]
    simp [get_user_session, clear_user_session]
  · intro hdiff
    have hmsg : (get_job (start_generation_update db now u j resp) j).map
        (fun r => r.error_message) = some (some nameErrorMsg) := by
      cases hget : get_job (start_generation_update db now u j resp) j with
      | none => rw [hget] at hjob; exact absurd hjob (by simp)
      | some r =>
        rw [hget] at hjob
        simp only [Option.map_some', Option.some.injEq, Prod.mk.injEq] at hjob
        simp [hget, hjob.2]
    rw [hmsg]
    intro h
    exact hdiff (Option.some.injEq _ _ ▸ h).symm

def respFailEx : VideoGenerationResponse :=
  { job_id := ""
    status := JobStatus.failed
    video_url := none
    error_message := some "API error: quota exceeded"
    progress := none }

def dbGenEx : DB :=
  { jobs := fun i => if i = 1 then some { jobRowEx with status := "pending" } else none
    nextJobId := 2
    sessions := fun u => if u = 1 then some sessEx else none }

/-- C8 witness: a concrete pending job and live session; after a failed
response carrying a backend message the job ends failed with the NameError
text instead, and the session row is gone. -/
theorem c8_start_generation_failed_name_error_witness :
    (get_job (start_generation_update dbGenEx 9 1 1 respFailEx) 1).map
        (fun r => (r.status, r.error_message)) = some ("failed", some nameErrorMsg)
    ∧ get_user_session (start_generation_update dbGenEx 9 1 1 respFailEx) 1 = none
    ∧ (get_job (start_generation_update dbGenEx 9 1 1 respFailEx) 1).map
        (fun r => r.error_message) ≠ some (some "API error: quota exceeded") := by
  have h := c8_start_generation_failed_name_error dbGenEx 9 1 1 respFailEx
    { jobRowEx with status := "pending" } rfl rfl
  exact ⟨h.1, h.2.1, h.2.2 (by decide)⟩

/-! ## Claim C7 -/

/-- C7: with an existing session whose stored photos deserialize to `ps`,
a further photo message is rejected without touching the store when
`ps` already holds max_photos entries; below the limit the saved photo is
appended and stored (losslessly serialized), and the flow signals prompt
readiness exactly when the new count reaches max_photos. -/
theorem c7_handle_photos_spec (db : DB) (now : Nat) (maxPhotos : Nat)
    (u : Int) (s : SessionRow) (ps : List String) (p : String)
    (hs : get_user_session db u = some s)
    (hp : json_loads s.photos = some ps) :
    (maxPhotos ≤ ps.length →
      handle_photos db now maxPhotos u (some p) =
        some (PhotoOutcome.rejectedFull ps.length, db))
    ∧ (ps.length < maxPhotos →
        handle_photos db now maxPhotos u (some p) =
          some ((if maxPhotos - (ps.length + 1) = 0 then PhotoOutcome.savedReady
                 else PhotoOutcome.savedMore (ps.length + 1)
                   (maxPhotos - (ps.length + 1))),
            update_user_state db now u "awaiting_prompt" (some (ps ++ [p])) none none)
        ∧ get_user_session
            (update_user_state db now u "awaiting_prompt" (some (ps ++ [p])) none none) u =
          some { s with
                 state := "awaiting_prompt"
                 photos := json_dumps (ps ++ [p])
                 updated_at := now }
        ∧ json_loads (json_dumps (ps ++ [p])) = some (ps ++ [p])) := by
  constructor
  · intro hfull
    simp only [handle_photos, hs, hp, handlePhotosWith, if_pos hfull]
  · intro hlt
    refine ⟨?_, ?_, json_loads_dumps (ps ++ [p])⟩
    · simp only [handle_photos, hs, hp, handlePhotosWith,
        if_neg (show ¬maxPhotos ≤ ps.length by omega)]
      by_cases hz : maxPhotos - (ps.length + 1) = 0
      · rw [if_pos hz]
        simp only [List.length_append, List.length_cons, List.length_nil]
        rw [if_neg (show ¬0 < maxPhotos - (ps.length + 0 + 1) by omega)]
      · rw [if_neg hz]
        simp only [List.length_append, List.length_cons, List.length_nil]
        rw [if_pos (show 0 < maxPhotos - (ps.length + 0 + 1) by omega)]
    · simp only [get_user_session] at hs
      simp [get_user_session, update_user_state, hs]

def sessTwoPhotos : SessionRow :=
  { state := "awaiting_prompt"
    photos := json_dumps ["photos/1_0.jpg", "photos/1_1.jpg"]
    current_prompt := ""
    last_job_id := none
    updated_at := 2 }

def sessFourPhotos : SessionRow :=
  { state := "awaiting_prompt"
    photos := json_dumps ["photos/1_0.jpg", "photos/1_1.jpg",
      "photos/1_2.jpg", "photos/1_3.jpg"]
    current_prompt := ""
    last_job_id := none
    updated_at := 2 }

def dbTwoPhotos : DB :=
  { jobs := fun _ => none
    nextJobId := 1
    sessions := fun u => if u = 1 then some sessTwoPhotos else none }

def dbFourPhotos : DB :=
  { jobs := fun _ => none
    nextJobId := 1
    sessions := fun u => if u = 1 then some sessFourPhotos else none }

/-- C7 witness: with max_photos = 4, a fifth photo is rejected leaving the
store untouched, and a third photo is appended with 1 slot reported
remaining. -/
theorem c7_handle_photos_witness :
    handle_photos dbFourPhotos 5 4 1 (some "photos/1_4.jpg") =
      some (PhotoOutcome.rejectedFull 4, dbFourPhotos)
    ∧ handle_photos dbTwoPhotos 5 4 1 (some "photos/1_2.jpg") =
        some (PhotoOutcome.savedMore 3 1,
          update_user_state dbTwoPhotos 5 1 "awaiting_prompt"
            (some ["photos/1_0.jpg", "photos/1_1.jpg", "photos/1_2.jpg"]) none none) := by
  constructor
  · exact (c7_handle_photos_spec dbFourPhotos 5 4 1 sessFourPhotos _ "photos/1_4.jpg"
      rfl (json_loads_dumps _)).1 (by decide)
  · exact ((c7_handle_photos_spec dbTwoPhotos 5 4 1 sessTwoPhotos _ "photos/1_2.jpg"
      rfl (json_loads_dumps _)).2 (by decide)).1

/-! ## Claim C6 -/

/-- A string contains another as a contiguous substring. -/
def containsSub (s sub : String) : Prop :=
  ∃ pre post : String, s = pre ++ sub ++ post

/-- C6: for every request carrying 1..4 images, the simulated backend
returns status completed (never failed) with a non-empty artifact path,
and the file written at that path contains the submitted prompt text. -/
theorem c6_mock_generate_spec (storagePath uuidHex : String)
    (req : VideoGenerationRequest)
    (h1 : 1 ≤ req.images.length) (h4 : req.images.length ≤ 4) :
    (mock_generate storagePath uuidHex req).1.status = JobStatus.completed
    ∧ (mock_generate storagePath uuidHex req).1.status ≠ JobStatus.failed
    ∧ (mock_generate storagePath uuidHex req).1.video_url =
        some (mock_generate storagePath uuidHex req).2.1
    ∧ (mock_generate storagePath uuidHex req).2.1 ≠ ""
    ∧ containsSub (mock_generate storagePath uuidHex req).2.2 req.prompt := by
  refine ⟨rfl, by simp [mock_generate], rfl, ?_, ?_⟩
  · intro h
    have hlen := congrArg String.length h
    simp only [mock_generate, String.length_append] at hlen
    have he : String.length "" = 0 := rfl
    have hsl : String.length "/" = 1 := rfl
    have hm : String.length "mock_" = 5 := rfl
    have hx : String.length ".mock" = 5 := rfl
    omega
  · refine ⟨"MOCK VIDEO PLACEHOLDER\n====================\nJob ID: " ++
      ("mock_" ++ uuidHex) ++ "\nPrompt: ",
      "\nImages: " ++ toString req.images.length ++
        "\nStatus: ready (mock mode)\n\nTo enable real video generation:\n" ++
        "1. Set MOCK_MODE=false in .env\n2. Add your Seedance API key\n" ++
        "3. Wait until Feb 24 for API access\n\n" ++
        "This placeholder represents where the generated video would be stored.\n", ?_⟩
    simp only [mock_generate, mockFileContent, String.append_assoc]

/-- C6 witness: the simulated backend at a concrete two-image request. -/
theorem c6_mock_generate_witness :
    (mock_generate "videos" "0123abcd"
        { prompt := "a cat dancing in the rain"
          images := ["photos/1_0.jpg", "photos/1_1.jpg"]
          resolution := "1080p"
          duration := none
          seed := none }).1.status = JobStatus.completed
    ∧ containsSub
        (mock_generate "videos" "0123abcd"
          { prompt := "a cat dancing in the rain"
            images := ["photos/1_0.jpg", "photos/1_1.jpg"]
            resolution := "1080p"
            duration := none
            seed := none }).2.2 "a cat dancing in the rain" := by
  refine ⟨(c6_mock_generate_spec "videos" "0123abcd" _ (by decide) (by decide)).1,
    (c6_mock_generate_spec "videos" "0123abcd" _ (by decide) (by decide)).2.2.2.2⟩

/-! ## Claim C5 -/

/-- The timeout Result returned when the poll budget is exhausted. -/
def timeoutResp (jobId : String) : VideoGenerationResponse :=
  { job_id := jobId
    status := JobStatus.failed
    video_url := none
    error_message := some "Timeout waiting for generation"
    progress := none }

theorem pollLoop_processing (storagePath jobId : String)
    (polls : Nat → PollResp) (download : String → DownloadResp)
    (hpolls : ∀ i, ∃ payload, polls i = PollResp.ok payload ∧
      payload.status = some "processing") :
    ∀ fuel attempt,
      pollLoop storagePath jobId polls download attempt fuel =
        (Except.ok (timeoutResp jobId), fuel) := by
  intro fuel
  induction fuel with
  | zero => intro attempt; rfl
  | succ f ih =>
    intro attempt
    obtain ⟨payload, hpoll, hstatus⟩ := hpolls attempt
    rw [pollLoop, hpoll, pollStep, hstatus]
    rw [show jobStatusOfString ((some "processing").getD "pending") =
        some JobStatus.processing from rfl]
    rw [pollWithStatus, pollOnStatus, if_neg (by decide), if_neg (by decide)]
    show bumpPoll (pollLoop storagePath jobId polls download (attempt + 1) f) = _
    rw [ih (attempt + 1)]
    rfl

/-- C5: when every status poll reports "processing", the live backend
returns a failed Result carrying the timeout message after exactly
max_attempts = 60 status requests — not before and not after (the second
component counts the polls actually performed). -/
theorem c5_real_generate_timeout (storagePath : String) (submit : SubmitResp)
    (polls : Nat → PollResp) (download : String → DownloadResp)
    (hsubmit : submit.httpStatus = 200)
    (hpolls : ∀ i, ∃ payload, polls i = PollResp.ok payload ∧
      payload.status = some "processing") :
    real_generate storagePath submit polls download =
      (Except.ok (timeoutResp submit.jobId), 60)
    ∧ max_attempts = 60 := by
  constructor
  · rw [real_generate, if_neg (by omega)]
    rw [pollLoop_processing storagePath submit.jobId polls download hpolls]
    rfl
  · rfl

def submitOkEx : SubmitResp :=
  { httpStatus := 200
    errorText := ""
    jobId := "prov_77" }

def processingPolls : Nat → PollResp := fun _ =>
  PollResp.ok
    { status := some "processing"
      progress := 40
      video_url := none
      error := none }

def downloadOk : String → DownloadResp := fun _ =>
  { httpStatus := 200, content := "bytes" }

/-- C5 witness: a concrete always-processing environment reaches the
timeout after exactly 60 polls. -/
theorem c5_real_generate_timeout_witness :
    real_generate "videos" submitOkEx processingPolls downloadOk =
      (Except.ok (timeoutResp "prov_77"), 60) :=
  (c5_real_generate_timeout "videos" submitOkEx processingPolls downloadOk rfl
    (fun _ => ⟨_, rfl, rfl⟩)).1

/-! ## Claim C4 -/

def badStatusPolls : Nat → PollResp := fun _ =>
  PollResp.ok
    { status := some "borked"
      progress := 0
      video_url := none
      error := none }

def completedPolls : Nat → PollResp := fun _ =>
  PollResp.ok
    { status := some "completed"
      progress := 100
      video_url := some "http-artifact-url"
      error := none }

def downloadFail : String → DownloadResp := fun _ =>
  { httpStatus := 500, content := "" }

/-- C4 counterexample: (i) a status payload carrying the unrecognized
status string "borked" makes the enum constructor raise ValueError, which
escapes _real_generate instead of becoming a failed Result; (ii) a failed
artifact download yields a Result whose status is completed, not failed,
with the download error only in error_message. -/
theorem c4_exceptions_escape_and_download_not_failed :
    (real_generate "videos" submitOkEx badStatusPolls downloadOk).1 =
      Except.error (PyErr.valueError "borked")
    ∧ (real_generate "videos" submitOkEx completedPolls downloadFail).1 =
        Except.ok
          { job_id := "prov_77"
            status := JobStatus.completed
            video_url := none
            error_message := some "Failed to download video"
            progress := none }
    ∧ JobStatus.completed ≠ JobStatus.failed := by
  exact ⟨rfl, rfl, by decide⟩

/-- C4 (amended): a non-200 submission response yields a failed Result
carrying the response body without any polling; a provider-reported
failure yields a failed Result with the provider's message; poll
exhaustion yields a failed Result with the timeout message after 60
polls; but a status payload whose status field is unrecognized raises a
ValueError that escapes to the caller, and a failed artifact download
yields a Result with status completed (not failed) whose error_message is
"Failed to download video". -/
theorem c4_real_generate_failure_semantics :
    (∀ (sp : String) (submit : SubmitResp) (polls : Nat → PollResp)
        (dl : String → DownloadResp), submit.httpStatus ≠ 200 →
      real_generate sp submit polls dl =
        (Except.ok
          { job_id := ""
            status := JobStatus.failed
            video_url := none
            error_message := some ("API error: " ++ submit.errorText)
            progress := none }, 0))
    ∧ (∀ (sp : String) (submit : SubmitResp) (polls : Nat → PollResp)
          (dl : String → DownloadResp) (payload : StatusPayload),
        submit.httpStatus = 200 → polls 0 = PollResp.ok payload →
        payload.status = some "failed" →
        real_generate sp submit polls dl =
          (Except.ok
            { job_id := submit.jobId
              status := JobStatus.failed
              video_url := none
              error_message := some (payload.error.getD "Unknown error")
              progress := none }, 1))
    ∧ (∀ (sp : String) (submit : SubmitResp) (polls : Nat → PollResp)
          (dl : String → DownloadResp), submit.httpStatus = 200 →
        (∀ i, ∃ payload, polls i = PollResp.ok payload ∧
          payload.status = some "processing") →
        real_generate sp submit polls dl =
          (Except.ok (timeoutResp submit.jobId), 60))
    ∧ (∀ (sp : String) (submit : SubmitResp) (polls : Nat → PollResp)
          (dl : String → DownloadResp) (payload : StatusPayload),
        submit.httpStatus = 200 → polls 0 = PollResp.ok payload →
        jobStatusOfString (payload.status.getD "pending") = none →
        real_generate sp submit polls dl =
          (Except.error (PyErr.valueError (payload.status.getD "pending")), 1))
    ∧ (∀ (sp : String) (submit : SubmitResp) (polls : Nat → PollResp)
          (dl : String → DownloadResp) (payload : StatusPayload) (url : String),
        submit.httpStatus = 200 → polls 0 = PollResp.ok payload →
        payload.status = some "completed" → payload.video_url = some url →
        (dl url).httpStatus ≠ 200 →
        real_generate sp submit polls dl =
          (Except.ok
            { job_id := submit.jobId
              status := JobStatus.completed
              video_url := none
              error_message := some "Failed to download video"
              progress := none }, 1)) := by
  refine ⟨?_, ?_, ?_, ?_, ?_⟩
  · intro sp submit polls dl h
    rw [real_generate, if_pos h]
  · intro sp submit polls dl payload h200 hpoll hstatus
    rw [real_generate, if_neg (by omega),
      show max_attempts = 59 + 1 from rfl, pollLoop, hpoll, pollStep, hstatus]
    rw [show jobStatusOfString ((some "failed").getD "pending") =
        some JobStatus.failed from rfl]
    rw [pollWithStatus, pollOnStatus, if_neg (by decide), if_pos rfl]
  · intro sp submit polls dl h200 hpolls
    rw [real_generate, if_neg (by omega),
      pollLoop_processing sp submit.jobId polls dl hpolls]
    rfl
  · intro sp submit polls dl payload h200 hpoll hbad
    rw [real_generate, if_neg (by omega),
      show max_attempts = 59 + 1 from rfl, pollLoop, hpoll, pollStep, hbad,
      pollWithStatus]
  · intro sp submit polls dl payload url h200 hpoll hstatus hurl hdl
    rw [real_generate, if_neg (by omega),
      show max_attempts = 59 + 1 from rfl, pollLoop, hpoll, pollStep, hstatus]
    rw [show jobStatusOfString ((some "completed").getD "pending") =
        some JobStatus.completed from rfl]
    rw [pollWithStatus, pollOnStatus, if_pos rfl, hurl, pollCompleted,
      if_neg hdl]

def submitBadEx : SubmitResp :=
  { httpStatus := 500
    errorText := "server down"
    jobId := "" }

def failedPolls : Nat → PollResp := fun _ =>
  PollResp.ok
    { status := some "failed"
      progress := 0
      video_url := none
      error := some "content policy" }

/-- C4 witness: the amended failure semantics at concrete environments —
a 500 submission, a provider-reported failure, an always-processing
timeout, an unrecognized status string, and a failed download. -/
theorem c4_real_generate_failure_semantics_witness :
    real_generate "videos" submitBadEx processingPolls downloadOk =
      (Except.ok
        { job_id := ""
          status := JobStatus.failed
          video_url := none
          error_message := some "API error: server down"
          progress := none }, 0)
    ∧ real_generate "videos" submitOkEx failedPolls downloadOk =
        (Except.ok
          { job_id := "prov_77"
            status := JobStatus.failed
            video_url := none
            error_message := some "content policy"
            progress := none }, 1)
    ∧ real_generate "videos" submitOkEx processingPolls downloadOk =
        (Except.ok (timeoutResp "prov_77"), 60)
    ∧ real_generate "videos" submitOkEx badStatusPolls downloadOk =
        (Except.error (PyErr.valueError "borked"), 1)
    ∧ real_generate "videos" submitOkEx completedPolls downloadFail =
        (Except.ok
          { job_id := "prov_77"
            status := JobStatus.completed
            video_url := none
            error_message := some "Failed to download video"
            progress := none }, 1) := by
  refine ⟨c4_real_generate_failure_semantics.1 "videos" submitBadEx processingPolls
      downloadOk (by decide), ?_, ?_, ?_, ?_⟩
  · exact c4_real_generate_failure_semantics.2.1 "videos" submitOkEx failedPolls
      downloadOk _ rfl rfl rfl
  · exact c4_real_generate_failure_semantics.2.2.1 "videos" submitOkEx
      processingPolls downloadOk rfl (fun _ => ⟨_, rfl, rfl⟩)
  · exact c4_real_generate_failure_semantics.2.2.2.1 "videos" submitOkEx
      badStatusPolls downloadOk _ rfl rfl rfl
  · exact c4_real_generate_failure_semantics.2.2.2.2 "videos" submitOkEx
      completedPolls downloadFail _ "http-artifact-url" rfl rfl rfl rfl (by decide)

end TVB
